import Mathlib

/-!
Verification development for the corona_status command-line tool
(src/corona_status.py). The core of the program is a disk-persisted,
TTL-based memoization layer (`cache` / `set_cache` / `cache_wrapper`,
lines 89-163) with a stale-fallback policy, plus a thin remote-fetch
layer (`api_get`) and rendering commands (`cmd_print`, `cmd_draw`).

The embedding below follows the Python source function by function.
Timestamps and durations are modelled as integers (a fixed unit such as
seconds), Python dicts as association lists, the pickle backing file as
an inductive content type, and raised exceptions as `Except` errors.
-/

set_option autoImplicit false

namespace CoronaStatus

/-- One entry of the persisted cache dictionary: the data-intrinsic
freshness timestamp together with the cached result
(`cache_storage[cache_key] = (data_timestamp, result)`). -/
abbrev CacheEntry (α : Type) : Type := Int × α

/-- The cache dictionary `cache_storage`, a mapping from cache key to
entry, modelled as an association list with first-match lookup. -/
abbrev Store (κ α : Type) : Type := List (κ × CacheEntry α)

/-- Dictionary lookup, `cache_storage.get(cache_key, (None, None))`
with the absent case reported as `none`. -/
def store_get {κ α : Type} [DecidableEq κ] : Store κ α → κ → Option (CacheEntry α)
  | [], _ => none
  | (k, e) :: rest, key => if k = key then some e else store_get rest key

/-- Dictionary assignment, `cache_storage[cache_key] = entry`: replaces
the entry of an existing key, otherwise appends the new pair. -/
def store_set {κ α : Type} [DecidableEq κ] : Store κ α → κ → CacheEntry α → Store κ α
  | [], key, e => [(key, e)]
  | (k, e') :: rest, key, e =>
      if k = key then (k, e) :: rest else (k, e') :: store_set rest key e

/-- What `pickle.load` can see in the backing file: an empty file, a
truncated pickle stream, garbage bytes that are not a pickle, or a
well-formed pickle of a whole store. -/
inductive FileContent (κ α : Type) where
  | empty
  | truncated
  | garbage
  | stored (s : Store κ α)
deriving DecidableEq

/-- The state of the backing file before the call: it may not exist yet
(`cache_file.exists()` false), or exist with some content. -/
inductive FileState (κ α : Type) where
  | missing
  | file (c : FileContent κ α)
deriving DecidableEq

/-- Errors that `pickle.load` raises: `FileNotFoundError`, `EOFError`
(empty or truncated stream), or `pickle.UnpicklingError` (content that
is not a valid pickle). -/
inductive PickleError where
  | fileNotFound
  | eofError
  | unpicklingError
deriving DecidableEq

/-- Lines 115-116: `if not cache_file.exists(): cache_file.touch()` —
a missing file is created empty; existing content is left alone. -/
def touch {κ α : Type} : FileState κ α → FileContent κ α
  | .missing => .empty
  | .file c => c

/-- The behaviour of `pickle.load(cachef)` on each kind of content:
an empty or truncated stream raises `EOFError`, non-pickle bytes raise
`pickle.UnpicklingError`, a valid pickle yields the stored mapping. -/
def pickle_load {κ α : Type} : FileContent κ α → Except PickleError (Store κ α)
  | .empty => .error .eofError
  | .truncated => .error .eofError
  | .garbage => .error .unpicklingError
  | .stored s => .ok s

/-- Lines 118-122: `try: cache_storage = pickle.load(cachef) ...
except (FileNotFoundError, EOFError): cache_storage = {}`. Only those
two exception classes are swallowed; any other load error propagates. -/
def load_cache_storage {κ α : Type} (c : FileContent κ α) :
    Except PickleError (Store κ α) :=
  match pickle_load c with
  | .ok s => .ok s
  | .error e =>
      if e = .fileNotFound ∨ e = .eofError then .ok [] else .error e

/-- Exceptions escaping `cache_wrapper`: an underlying-fetch error not
in the catch set propagated unchanged; the `ValueError("Caught
exception, but couldn't find cached value") from e` of lines 146-148
(the spec's `CacheMissError`), carrying the original error; or a
pickle-load error the `except` clause does not cover. -/
inductive CacheError (ε : Type) where
  | underlying (e : ε)
  | cacheMissValueError (e : ε)
  | storeCorrupt (pe : PickleError)
deriving DecidableEq

/-- The observable outcome of one `cache_wrapper` invocation: the value
returned or exception raised, the backing file state afterwards, and
how many times the wrapped function `fn` was invoked. -/
structure CallResult (κ α ε : Type) where
  result : Except (CacheError ε) α
  file : FileState κ α
  fetchCount : Nat

/-- Lines 137-155, the expired-or-miss path: `result = fn(*args,
**kwargs)` under `try`/`except catch_exceptions`. On success the entry
becomes `(get_timestamp(result), result)` and is dumped. On a caught
error with a prior entry, the prior entry is written back verbatim and
its value returned; with no prior entry the `ValueError` is raised (no
dump). A non-caught error propagates before any dump. -/
def run_fetch {κ α ε : Type} [DecidableEq κ] [DecidableEq ε]
    (get_timestamp : α → Int) (catch_exceptions : Option (List ε))
    (fn : Except ε α) (cache_key : κ) (content : FileContent κ α)
    (cache_storage : Store κ α) (prior : Option (CacheEntry α)) :
    CallResult κ α ε :=
  let catchable := catch_exceptions.getD []
  match fn with
  | .ok result =>
      let data_timestamp := get_timestamp result
      { result := .ok result
        file := .file (.stored (store_set cache_storage cache_key (data_timestamp, result)))
        fetchCount := 1 }
  | .error e =>
      if e ∈ catchable then
        match prior with
        | none =>
            { result := .error (.cacheMissValueError e)
              file := .file content
              fetchCount := 1 }
        | some (cache_timestamp, cached) =>
            { result := .ok cached
              file := .file (.stored (store_set cache_storage cache_key (cache_timestamp, cached)))
              fetchCount := 1 }
      else
        { result := .error (.underlying e)
          file := .file content
          fetchCount := 1 }

/-- Lines 113-159, one invocation of `cache_wrapper`. Parameters:
`valid_for` and `get_timestamp` and `catch_exceptions` are the `cache`
decorator's configuration; `fn` is the outcome the wrapped function
would produce if invoked now; `cache_key` is the key built for this
call; `now` is `datetime.datetime.now(timezone.utc)`; `st` is the
backing file's state. The file is touched, the store loaded (a load
error outside `(FileNotFoundError, EOFError)` propagates), the key
looked up; a fresh entry (`now - cache_timestamp < valid_for`) is
returned with the store dumped unchanged, otherwise `run_fetch` runs. -/
def cache_wrapper {κ α ε : Type} [DecidableEq κ] [DecidableEq ε]
    (valid_for : Int) (get_timestamp : α → Int) (catch_exceptions : Option (List ε))
    (fn : Except ε α) (cache_key : κ) (now : Int) (st : FileState κ α) :
    CallResult κ α ε :=
  let content := touch st
  match load_cache_storage content with
  | .error pe => { result := .error (.storeCorrupt pe), file := .file content, fetchCount := 0 }
  | .ok cache_storage =>
      match store_get cache_storage cache_key with
      | some (cache_timestamp, result) =>
          if valid_for ≤ now - cache_timestamp then
            run_fetch get_timestamp catch_exceptions fn cache_key content cache_storage
              (some (cache_timestamp, result))
          else
            { result := .ok result, file := .file (.stored cache_storage), fetchCount := 0 }
      | none =>
          run_fetch get_timestamp catch_exceptions fn cache_key content cache_storage none

/-- A Python argument value as it appears in the program's calls: the
wrapped operations take a district identifier string and an integer day
count. -/
inductive PyVal where
  | str (s : String)
  | int (n : Int)
deriving DecidableEq

/-- Line 123: `cache_key = (fn.__name__, args, tuple(kwargs))`. Note
that iterating a Python dict yields its keys, so `tuple(kwargs)` is the
tuple of keyword-argument NAMES in insertion order; the keyword
arguments' values do not enter the key. -/
def build_key (fn_name : String) (args : List PyVal)
    (kwargs : List (String × PyVal)) : String × List PyVal × List String :=
  (fn_name, args, kwargs.map Prod.fst)

/-- Exception classes raised by the program's own code paths relevant
here: `RuntimeError` (raised by `api_get`, the spec's `RemoteError`)
and `ZeroDivisionError` (raised by `scale` on a zero divisor). -/
inductive PyExc where
  | runtimeError
  | zeroDivisionError
deriving DecidableEq

/-- The parts of an HTTP response that `api_get` inspects: the status
code and, in the decoded JSON payload, whether an `error` field is
present (`some msg?`, its optional `message`) or absent (`none`). -/
structure ApiResponse where
  status_code : Nat
  jsonError : Option (Option String)
deriving DecidableEq

/-- The success status `requests.codes.ok`. -/
def codes_ok : Nat := 200

/-- Lines 166-173: `api_get` raises `RuntimeError` when the status code
is not `requests.codes.ok`, raises `RuntimeError` when the payload has
an `error` field, and otherwise returns the response unchanged. -/
def api_get (resp : ApiResponse) : Except PyExc ApiResponse :=
  if ¬ resp.status_code = codes_ok then .error .runtimeError
  else if resp.jsonError.isSome then .error .runtimeError
  else .ok resp

/-- Lines 176-179: the `cache` decorator configuration of
`get_district` (likewise `get_district_history_incidence` and
`get_district_history_cases`): `catch_exceptions = (RuntimeError,)`. -/
def get_district_catch_exceptions : Option (List PyExc) :=
  some [PyExc.runtimeError]

/-- The command-line arguments `main` parses (lines 312-334): loglevel,
the district key `ags`, `--days`, `--full-days`, `--cache-file` and
`--draw`. -/
structure Args where
  loglevel : String
  ags : String
  days : Int
  full_days : Int
  cache_file : Option String
  draw : Bool
deriving DecidableEq

/-- Association-list lookup modelling `os.environb.get`. -/
def env_get : List (String × String) → String → Option String
  | [], _ => none
  | (k, v) :: rest, key => if k = key then some v else env_get rest key

/-- Lines 105-110 (`set_cache`): the backing file is
`os.environb.get(b'CORONA_STATUS_CACHE', Path(__file__).parent /
'corona_status.cache')` — the environment override if present, else the
default path beside the program. -/
def resolve_cache_file (env : List (String × String)) (program_dir : String) : String :=
  match env_get env "CORONA_STATUS_CACHE" with
  | some p => p
  | none => String.append program_dir "/corona_status.cache"

/-- Everything that determines a run's behaviour after argument
parsing: the logging level, the resolved backing file, whether
`cmd_draw` or `cmd_print` runs, and the `ags`, `days` and `full_days`
values those commands consume. -/
structure RunConfig where
  loglevel : String
  cachePath : String
  draw : Bool
  ags : String
  days : Int
  full_days : Int
deriving DecidableEq

/-- Lines 311-343 (`main`) as a function from parsed arguments and the
process environment to the run configuration: `main` reads
`args.loglevel`, `args.draw`, `args.ags`, `args.days` and
`args.full_days`, and the cache location comes from `set_cache`'s
environment lookup; `args.cache_file` is never read. -/
def main_config (args : Args) (env : List (String × String))
    (program_dir : String) : RunConfig :=
  { loglevel := args.loglevel
    cachePath := resolve_cache_file env program_dir
    draw := args.draw
    ags := args.ags
    days := args.days
    full_days := args.full_days }

/-- One item of the incidence history consumed by `cmd_draw`: its
`weekIncidence` value (a rational standing for the JSON number) and its
`date` as an integer timestamp in seconds, so that `(day.date -
first_day).total_seconds()` is integer subtraction cast to a number. -/
structure HistoryItemIncidence where
  weekIncidence : ℚ
  date : Int
deriving DecidableEq

/-- Lines 257-271, the `scale` helper of `cmd_draw`. The division
`value_in_scale / (value_max - value_min)` is unguarded in the source;
Python raises `ZeroDivisionError` when the divisor equals zero, which
the embedding reports as an `Except` error. -/
def scale (target_min target_max value_min value_max value : ℚ)
    (flip : Bool) : Except PyExc ℚ :=
  let value_in_scale := value - value_min
  if value_max - value_min = 0 then .error .zeroDivisionError
  else
    let percentage := value_in_scale / (value_max - value_min)
    let percentage := if flip then 1 - percentage else percentage
    let value_in_target_scale := percentage * (target_max - target_min)
    .ok (value_in_target_scale + target_min)

/-- Line 277: `get_seconds = lambda td: td.total_seconds()`, with the
timedelta already an integer number of seconds. -/
def get_seconds (td : Int) : ℚ := (td : ℚ)

/-- Lines 275-281: `max_seconds` is the running maximum, starting at 0,
of `get_seconds(day.date - first_day)` over the history. -/
def max_seconds_of (first_day : Int) (history : List HistoryItemIncidence) : ℚ :=
  history.foldl (fun m day => max m (get_seconds (day.date - first_day))) 0

/-- Lines 286-290: `min_incidence` starts at 700000 and takes the
minimum with each `day.weekIncidence`. -/
def min_incidence_of (history : List HistoryItemIncidence) : ℚ :=
  history.foldl (fun m day => min m day.weekIncidence) 700000

/-- Lines 286-290: `max_incidence` starts at 0 and takes the maximum
with each `day.weekIncidence`. -/
def max_incidence_of (history : List HistoryItemIncidence) : ℚ :=
  history.foldl (fun m day => max m day.weekIncidence) 0

/-- Lines 283-284: `scale_day(value) = scale(0, width, 0, max_seconds,
value)`. -/
def scale_day (width max_seconds : ℚ) (value : ℚ) : Except PyExc ℚ :=
  scale 0 width 0 max_seconds value false

/-- Lines 292-293: `scale_incidence(value, flip) = scale(0, height,
min_incidence, max_incidence, value, flip)`. -/
def scale_incidence (height min_incidence max_incidence : ℚ) (value : ℚ)
    (flip : Bool) : Except PyExc ℚ :=
  scale 0 height min_incidence max_incidence value flip

/-- Lines 275-308, the numeric core of `cmd_draw` after the history is
fetched: `first_day` is the first item's date, the extrema are computed
as above, and each day is mapped to the canvas point `(scale_day(...),
scale_incidence(..., flip=True))`; the first exception raised by
`scale` aborts the command. An empty history draws no points. -/
def draw_points (width height : ℚ) (history : List HistoryItemIncidence) :
    Except PyExc (List (ℚ × ℚ)) :=
  match history with
  | [] => .ok []
  | d0 :: _ =>
      let first_day := d0.date
      let ms := max_seconds_of first_day history
      let mni := min_incidence_of history
      let mxi := max_incidence_of history
      history.mapM (fun day => do
        let x ← scale_day width ms (get_seconds (day.date - first_day))
        let y ← scale_incidence height mni mxi day.weekIncidence true
        pure (x, y))

/-! Helper lemmas about the store and the fetch path, shared by the
claim theorems below. -/

theorem store_get_store_set_self {κ α : Type} [DecidableEq κ]
    (s : Store κ α) (k : κ) (e : CacheEntry α) :
    store_get (store_set s k e) k = some e := by
  induction s with
  | nil => simp [store_set, store_get]
  | cons p rest ih =>
      obtain ⟨k', e'⟩ := p
      by_cases h : k' = k <;> simp [store_set, store_get, h, ih]

theorem run_fetch_fetchCount {κ α ε : Type} [DecidableEq κ] [DecidableEq ε]
    (get_timestamp : α → Int) (catch_exceptions : Option (List ε))
    (fn : Except ε α) (cache_key : κ) (content : FileContent κ α)
    (cache_storage : Store κ α) (prior : Option (CacheEntry α)) :
    (run_fetch get_timestamp catch_exceptions fn cache_key content
        cache_storage prior).fetchCount = 1 := by
  unfold run_fetch
  cases fn with
  | ok r => rfl
  | error e =>
      by_cases h : e ∈ catch_exceptions.getD [] <;>
        rcases prior with _ | ⟨ts, v⟩ <;> simp [h]

/-- Claim C1: on a fresh hit — the loaded store has an entry for the
key and `now - entry.timestamp < valid_for` — `cache_wrapper` returns
the cached value unchanged, never invokes the wrapped function, and
writes back exactly the mapping it loaded. -/
theorem fresh_hit_returns_cached {κ α ε : Type} [DecidableEq κ] [DecidableEq ε]
    (valid_for : Int) (get_timestamp : α → Int)
    (catch_exceptions : Option (List ε)) (fn : Except ε α) (cache_key : κ)
    (now : Int) (s : Store κ α) (ts : Int) (v : α)
    (hentry : store_get s cache_key = some (ts, v))
    (hfresh : now - ts < valid_for) :
    cache_wrapper valid_for get_timestamp catch_exceptions fn cache_key now
        (.file (.stored s)) =
      { result := .ok v, file := .file (.stored s), fetchCount := 0 } := by
  unfold cache_wrapper
  simp [touch, load_cache_storage, pickle_load, hentry, not_le.mpr hfresh]

/-- Witness for C1 at a concrete store and clock. -/
theorem fresh_hit_returns_cached_witness :
    store_get [((0 : Nat), ((5 : Int), (42 : Nat)))] 0 = some (5, 42) ∧
    (10 : Int) - 5 < 100 ∧
    cache_wrapper 100 (fun _ : Nat => 0) (none : Option (List Nat))
        (Except.ok 7) 0 10 (.file (.stored [(0, (5, 42))])) =
      { result := .ok 42, file := .file (.stored [(0, (5, 42))]), fetchCount := 0 } :=
  ⟨by simp [store_get], by decide,
    fresh_hit_returns_cached 100 (fun _ => 0) none (Except.ok 7) 0 10
      [(0, (5, 42))] 5 42 (by simp [store_get]) (by decide)⟩

/-- Claim C2: on a miss or an expired entry, if the wrapped function
succeeds with `r`, `cache_wrapper` invokes it exactly once, stores
`(get_timestamp r, r)` under the key, persists the updated mapping, and
returns `r`. -/
theorem expired_or_miss_fetches_once {κ α ε : Type} [DecidableEq κ] [DecidableEq ε]
    (valid_for : Int) (get_timestamp : α → Int)
    (catch_exceptions : Option (List ε)) (fn : Except ε α) (cache_key : κ)
    (now : Int) (s : Store κ α) (r : α)
    (hfn : fn = .ok r)
    (hmiss : store_get s cache_key = none ∨
      ∃ ts v, store_get s cache_key = some (ts, v) ∧ valid_for ≤ now - ts) :
    cache_wrapper valid_for get_timestamp catch_exceptions fn cache_key now
        (.file (.stored s)) =
      { result := .ok r,
        file := .file (.stored (store_set s cache_key (get_timestamp r, r))),
        fetchCount := 1 } := by
  unfold cache_wrapper run_fetch
  rcases hmiss with h | ⟨ts, v, h, hexp⟩
  · simp [touch, load_cache_storage, pickle_load, h, hfn]
  · simp [touch, load_cache_storage, pickle_load, h, hfn, hexp]

/-- Witness for C2 at a concrete expired entry. -/
theorem expired_or_miss_fetches_once_witness :
    cache_wrapper 100 (fun x : Nat => (x : Int)) (none : Option (List Nat))
        (Except.ok 7) (0 : Nat) 200 (.file (.stored [(0, (5, 42))])) =
      { result := .ok 7, file := .file (.stored (store_set [(0, (5, 42))] 0 (7, 7))),
        fetchCount := 1 } :=
  expired_or_miss_fetches_once 100 (fun x : Nat => (x : Int)) none (Except.ok 7)
    0 200 [(0, (5, 42))] 7 rfl (Or.inr ⟨5, 42, by simp [store_get], by decide⟩)

/-- Claim C3: when the entry is expired and the wrapped function fails
with an error in the catch set while a prior entry `(ts, v)` exists,
`cache_wrapper` returns the prior value `v`, writes the entry back with
its OLD timestamp `ts` (not refreshed), and therefore any later call at
a clock `now' ≥ now` invokes the fetch again. -/
theorem fallback_serves_stale_and_keeps_timestamp {κ α ε : Type}
    [DecidableEq κ] [DecidableEq ε]
    (valid_for : Int) (get_timestamp : α → Int)
    (catch_exceptions : Option (List ε)) (fn : Except ε α) (cache_key : κ)
    (now : Int) (s : Store κ α) (e : ε) (ts : Int) (v : α)
    (hentry : store_get s cache_key = some (ts, v))
    (hexpired : valid_for ≤ now - ts)
    (hfn : fn = .error e)
    (hcatch : e ∈ catch_exceptions.getD []) :
    cache_wrapper valid_for get_timestamp catch_exceptions fn cache_key now
        (.file (.stored s)) =
      { result := .ok v,
        file := .file (.stored (store_set s cache_key (ts, v))),
        fetchCount := 1 } ∧
    store_get (store_set s cache_key (ts, v)) cache_key = some (ts, v) ∧
    ∀ (fn' : Except ε α) (now' : Int), now ≤ now' →
      (cache_wrapper valid_for get_timestamp catch_exceptions fn' cache_key now'
          (.file (.stored (store_set s cache_key (ts, v))))).fetchCount = 1 := by
  refine ⟨?_, store_get_store_set_self s cache_key (ts, v), ?_⟩
  · unfold cache_wrapper run_fetch
    simp [touch, load_cache_storage, pickle_load, hentry, hexpired, hfn, hcatch]
  · intro fn' now' hnow
    have hexp' : valid_for ≤ now' - ts := le_trans hexpired (by omega)
    unfold cache_wrapper
    simp [touch, load_cache_storage, pickle_load, store_get_store_set_self,
      hexp', run_fetch_fetchCount]

/-- Witness for C3 at a concrete seeded entry and failing fetch. -/
theorem fallback_serves_stale_and_keeps_timestamp_witness :
    (cache_wrapper 100 (fun x : Nat => (x : Int)) (some [(3 : Nat)])
        (Except.error 3) (0 : Nat) 200 (.file (.stored [(0, (5, 42))]))).result =
      Except.ok 42 :=
  congrArg CallResult.result
    (fallback_serves_stale_and_keeps_timestamp 100 (fun x : Nat => (x : Int))
      (some [3]) (Except.error 3) 0 200 [(0, (5, 42))] 3 5 42
      (by simp [store_get]) (by decide) rfl (by decide)).1

/-- Claim C4: when the wrapped function fails with an error in the
catch set and NO prior entry exists for the key, `cache_wrapper` raises
the distinct cache-miss `ValueError` wrapping the original error, and
that error is the call's result (it propagates). -/
theorem fallback_without_entry_raises_cache_miss {κ α ε : Type}
    [DecidableEq κ] [DecidableEq ε]
    (valid_for : Int) (get_timestamp : α → Int)
    (catch_exceptions : Option (List ε)) (fn : Except ε α) (cache_key : κ)
    (now : Int) (s : Store κ α) (e : ε)
    (hentry : store_get s cache_key = none)
    (hfn : fn = .error e)
    (hcatch : e ∈ catch_exceptions.getD []) :
    cache_wrapper valid_for get_timestamp catch_exceptions fn cache_key now
        (.file (.stored s)) =
      { result := .error (.cacheMissValueError e),
        file := .file (.stored s), fetchCount := 1 } := by
  unfold cache_wrapper run_fetch
  simp [touch, load_cache_storage, pickle_load, hentry, hfn, hcatch]

/-- Witness for C4 at a concrete empty store. -/
theorem fallback_without_entry_raises_cache_miss_witness :
    cache_wrapper 100 (fun x : Nat => (x : Int)) (some [(3 : Nat)])
        (Except.error 3) (0 : Nat) 200 (.file (.stored [])) =
      { result := .error (.cacheMissValueError 3),
        file := .file (.stored []), fetchCount := 1 } :=
  fallback_without_entry_raises_cache_miss 100 (fun x : Nat => (x : Int))
    (some [3]) (Except.error 3) 0 200 [] 3 rfl rfl (by decide)

/-- Claim C5: when the wrapped function fails with an error NOT in the
catch set (on a miss or an expired entry), `cache_wrapper` propagates
that original error unchanged and the backing file still holds exactly
the mapping `s` it held before — no write occurred, so any previously
stored entry for the key is unchanged. -/
theorem non_fallback_error_propagates_store_untouched {κ α ε : Type}
    [DecidableEq κ] [DecidableEq ε]
    (valid_for : Int) (get_timestamp : α → Int)
    (catch_exceptions : Option (List ε)) (fn : Except ε α) (cache_key : κ)
    (now : Int) (s : Store κ α) (e : ε)
    (hfn : fn = .error e)
    (hcatch : e ∉ catch_exceptions.getD [])
    (hmiss : store_get s cache_key = none ∨
      ∃ ts v, store_get s cache_key = some (ts, v) ∧ valid_for ≤ now - ts) :
    cache_wrapper valid_for get_timestamp catch_exceptions fn cache_key now
        (.file (.stored s)) =
      { result := .error (.underlying e), file := .file (.stored s),
        fetchCount := 1 } := by
  unfold cache_wrapper run_fetch
  rcases hmiss with h | ⟨ts, v, h, hexp⟩
  · simp [touch, load_cache_storage, pickle_load, h, hfn, hcatch]
  · simp [touch, load_cache_storage, pickle_load, h, hfn, hexp, hcatch]

/-- Witness for C5: a seeded entry (42 at timestamp 5) survives a
non-catchable failure unchanged. -/
theorem non_fallback_error_propagates_store_untouched_witness :
    cache_wrapper 100 (fun x : Nat => (x : Int)) (some [(3 : Nat)])
        (Except.error 9) (0 : Nat) 200 (.file (.stored [(0, (5, 42))])) =
      { result := .error (.underlying 9),
        file := .file (.stored [(0, (5, 42))]), fetchCount := 1 } :=
  non_fallback_error_propagates_store_untouched 100 (fun x : Nat => (x : Int))
    (some [3]) (Except.error 9) 0 200 [(0, (5, 42))] 9 rfl (by decide)
    (Or.inr ⟨5, 42, by simp [store_get], by decide⟩)

/-- Claim C6 counterexample: corrupt (undeserializable) backing content
does NOT yield an empty mapping — `pickle.load` raises
`UnpicklingError`, which lines 121-122 catch only as
`(FileNotFoundError, EOFError)`, so the load step fails and the error
reaches `cache_wrapper`'s caller as the call's outcome. -/
theorem corrupt_content_error_propagates :
    load_cache_storage (FileContent.garbage : FileContent Nat Nat) =
      Except.error PickleError.unpicklingError ∧
    ¬ load_cache_storage (FileContent.garbage : FileContent Nat Nat) =
        Except.ok ([] : Store Nat Nat) ∧
    (cache_wrapper 100 (fun _ : Nat => 0) (none : Option (List Nat))
        (Except.ok 1) (0 : Nat) 5 (.file .garbage)).result =
      Except.error (.storeCorrupt .unpicklingError) :=
  ⟨rfl, by simp [load_cache_storage, pickle_load], rfl⟩

/-- Claim C6 as amended: a missing backing file is touched to an empty
one, and empty or end-of-file-truncated content is swallowed into an
empty mapping (`FileNotFoundError` and `EOFError` are caught); but
content whose deserialization fails with any other error — here an
unpickling error — propagates instead of being treated as empty. -/
theorem load_missing_or_empty_yields_empty_store :
    touch (FileState.missing : FileState Nat Nat) = FileContent.empty ∧
    load_cache_storage (FileContent.empty : FileContent Nat Nat) =
      Except.ok [] ∧
    load_cache_storage (FileContent.truncated : FileContent Nat Nat) =
      Except.ok [] ∧
    load_cache_storage (FileContent.garbage : FileContent Nat Nat) =
      Except.error PickleError.unpicklingError :=
  ⟨rfl, rfl, rfl, rfl⟩

/-- Claim C7: the key built for
`get_district_history_incidence("02000", days=7)` equals the key built
for `get_district_history_incidence("02000", days=14)` even though the
keyword-argument values 7 and 14 differ, because line 123 tuples only
the keyword names. -/
theorem build_key_ignores_keyword_values :
    build_key "get_district_history_incidence" [PyVal.str "02000"]
        [("days", PyVal.int 7)] =
      build_key "get_district_history_incidence" [PyVal.str "02000"]
        [("days", PyVal.int 14)] ∧
    PyVal.int 7 ≠ PyVal.int 14 :=
  ⟨rfl, by decide⟩

/-- Claim C8: `api_get` fails (with the `RuntimeError` the spec calls
`RemoteError`, a member of the decorators' catch set) exactly when the
status code is not `requests.codes.ok` or the payload carries an
`error` field; on a success status with no `error` field it returns
the response unchanged. -/
theorem api_get_remote_error_iff (resp : ApiResponse) :
    ((∃ e, api_get resp = .error e) ↔
      (¬ resp.status_code = codes_ok ∨ ¬ resp.jsonError = none)) ∧
    (resp.status_code = codes_ok ∧ resp.jsonError = none →
      api_get resp = .ok resp) ∧
    (∀ e, api_get resp = .error e →
      e ∈ get_district_catch_exceptions.getD []) := by
  obtain ⟨sc, je⟩ := resp
  unfold api_get
  rcases je with _ | m <;> by_cases h1 : sc = codes_ok <;>
    simp_all [get_district_catch_exceptions]

/-- Witness for C8 at a success response with no error field. -/
theorem api_get_remote_error_iff_witness :
    api_get { status_code := 200, jsonError := none } =
      Except.ok { status_code := 200, jsonError := none } :=
  (api_get_remote_error_iff { status_code := 200, jsonError := none }).2.1
    ⟨rfl, rfl⟩

/-- Claim C9: the run configuration `main` produces — logging level,
resolved backing file, command choice, and the values the commands
read — is identical for two argument vectors that differ only in
`--cache-file`, and the backing location depends only on the
environment and the program's directory. -/
theorem cache_file_option_has_no_effect (args : Args)
    (env : List (String × String)) (program_dir : String)
    (p p' : Option String) :
    main_config { args with cache_file := p } env program_dir =
      main_config { args with cache_file := p' } env program_dir ∧
    (main_config args env program_dir).cachePath =
      resolve_cache_file env program_dir :=
  ⟨rfl, rfl⟩

theorem max_seconds_all_same_date (fd : Int) :
    ∀ l : List HistoryItemIncidence, (∀ d ∈ l, d.date = fd) →
      l.foldl (fun m day => max m (get_seconds (day.date - fd))) 0 = 0 := by
  intro l
  induction l with
  | nil => intro _; rfl
  | cons d rest ih =>
      intro h
      have hd : d.date = fd := h d (List.mem_cons_self d rest)
      have hstep : max (0 : ℚ) (get_seconds (d.date - fd)) = 0 := by
        simp [hd, get_seconds]
      simp only [List.foldl_cons, hstep]
      exact ih fun d' hd' => h d' (List.mem_cons_of_mem d hd')

/-- Claim C10: on any nonempty history whose entries all share one date
— in particular a single-entry history — the `cmd_draw` pipeline's
`max_seconds` is 0, so the very first `scale_day` call divides by
`value_max - value_min = 0` and the command aborts with
`ZeroDivisionError` instead of rendering. -/
theorem draw_shared_date_division_by_zero (width height : ℚ)
    (d0 : HistoryItemIncidence) (rest : List HistoryItemIncidence)
    (hdates : ∀ d ∈ d0 :: rest, d.date = d0.date) :
    draw_points width height (d0 :: rest) =
      Except.error PyExc.zeroDivisionError := by
  have hms : max_seconds_of d0.date (d0 :: rest) = 0 :=
    max_seconds_all_same_date d0.date (d0 :: rest) hdates
  have hfirst : scale_day width (max_seconds_of d0.date (d0 :: rest))
      (get_seconds (d0.date - d0.date)) = Except.error PyExc.zeroDivisionError := by
    rw [hms]
    simp [scale_day, scale, get_seconds]
  simp only [draw_points, List.mapM_cons, hfirst]
  rfl

/-- Witness for C10: a single-entry history. -/
theorem draw_shared_date_division_by_zero_witness :
    draw_points 80 24 [{ weekIncidence := 50, date := 1000 }] =
      Except.error PyExc.zeroDivisionError :=
  draw_shared_date_division_by_zero 80 24 { weekIncidence := 50, date := 1000 }
    [] (by simp)

end CoronaStatus
